import Mathlib

/-!
Verification development for the defect-tracker application
(`streamlit_app.py`).  The Python source is shallowly embedded: dates are
modelled as integer day numbers, the SQLite `defects` table as a list of
rows, and every helper of the source file becomes an executable Lean
function.  String primitives of the source (`str.strip`, `str.lower`,
`str.upper`, `str.split`, `int(...)`, `"%03d"` formatting, SQLite `LIKE`,
regular-expression search) are implemented here over `List Char` by
structural recursion so that all theorems can be settled by computation
and induction.
-/

/-- Calendar dates are modelled as integer day numbers; subtraction of two
dates then gives exactly the `(end - open_date).days` value of the source. -/
abbrev Date := Int

/-! ### Python string primitives -/

/-- Python `str.strip()`: drop leading and trailing whitespace. -/
def pyStrip (s : String) : String :=
  String.mk (((s.data.dropWhile Char.isWhitespace).reverse.dropWhile Char.isWhitespace).reverse)

/-- Python `str.lower()` (ASCII, which is all the source data uses). -/
def pyLower (s : String) : String :=
  String.mk (s.data.map Char.toLower)

/-- Python `str.upper()` (ASCII). -/
def pyUpper (s : String) : String :=
  String.mk (s.data.map Char.toUpper)

/-- Auxiliary for `splitDash`: accumulate the current segment (reversed). -/
def splitDashAux : List Char → List Char → List String
  | [], acc => [String.mk acc.reverse]
  | c :: cs, acc =>
      if c = '-' then String.mk acc.reverse :: splitDashAux cs []
      else splitDashAux cs (c :: acc)

/-- Python `s.split("-")`: split on every dash, keeping empty segments. -/
def splitDash (s : String) : List String :=
  splitDashAux s.data []

/-- Python `s.split("-")[-1]`: the trailing segment after the last dash
(`split` always returns a non-empty list, so indexing `[-1]` is safe). -/
def last_dash_segment (s : String) : String :=
  (splitDash s).getLastD ""

/-- Value of a list of decimal digit characters. -/
def digitsToNat (l : List Char) : Nat :=
  l.foldl (fun n c => n * 10 + (c.toNat - 48)) 0

/-- Python `int(s)` on a string, returning `none` where Python raises
`ValueError`: optional surrounding whitespace, an optional sign, then at
least one decimal digit.  (Python also accepts underscore digit
separators, which never occur in this application's identifiers.) -/
def pyInt (s : String) : Option Int :=
  let t := (pyStrip s).data
  match t with
  | '-' :: ds => if !ds.isEmpty && ds.all Char.isDigit then some (-(digitsToNat ds : Int)) else none
  | '+' :: ds => if !ds.isEmpty && ds.all Char.isDigit then some ((digitsToNat ds : Int)) else none
  | ds => if !ds.isEmpty && ds.all Char.isDigit then some ((digitsToNat ds : Int)) else none

/-- Python `f"{n:03d}"` for the non-negative values this application
formats: pad the decimal representation with leading zeros to width 3. -/
def pad3 (n : Int) : String :=
  let s := toString n
  if s.length ≥ 3 then s else String.mk (List.replicate (3 - s.length) '0') ++ s

/-! ### `parse_any_date` (streamlit_app.py lines 96-110) -/

/-- The runtime values `parse_any_date` receives: `None`, a
`datetime.datetime`, a `datetime.date`, or anything else via `str(x)`. -/
inductive PyVal where
  | pynone
  | pydatetime (d : Date)
  | pydate (d : Date)
  | pystr (s : String)
deriving DecidableEq

/-- Function `parse_any_date` from the source.  The pandas call
`pd.to_datetime(s, dayfirst=True, errors="raise").date()` is abstracted as
the parameter `pdParse`; `.error` models the raised exception, which the
source's `try/except` turns into `None`. -/
def parse_any_date (pdParse : String → Except String Date) : PyVal → Option Date
  | .pynone => none
  | .pydatetime d => some d
  | .pydate d => some d
  | .pystr x =>
      let s := pyStrip x
      if s = "" ∨ pyLower s = "nan" ∨ pyLower s = "none" ∨ pyLower s = "null" then none
      else
        match pdParse s with
        | .ok d => some d
        | .error _ => none

/-! ### `compute_age_days` (streamlit_app.py lines 117-124) -/

/-- Function `compute_age_days` from the source; `today` is the value of
`today_date()` at call time.  A `datetime.date` is always truthy in
Python, so `if not open_date` is exactly `open_date is None`, and the
truthiness test on `resolved_date` is `resolved_date is not None`. -/
def compute_age_days (today : Date) (open_date resolved_date : Option Date)
    (status : String) : Option Int :=
  match open_date with
  | none => none
  | some o =>
      let e : Date :=
        match resolved_date with
        | some r => if status = "Resolved" ∨ status = "Closed" then r else today
        | none => today
      some (max 0 (e - o))

/-! ### Aging bucket (streamlit_app.py lines 729-740) -/

/-- The `bucket` function of the dashboard tab; its argument is an entry
of the `Age (days)` column, `none` standing for Python `None`. -/
def bucket : Option Int → String
  | none => "Unknown"
  | some age =>
      if age ≤ 2 then "0–2"
      else if age ≤ 7 then "3–7"
      else if age ≤ 14 then "8–14"
      else "15+"

/-! ### SQLite `LIKE` and identifier generation
(streamlit_app.py lines 64-65 and 358-380) -/

/-- SQLite `LIKE` pattern matching over characters, fuel-indexed so the
definition is structurally recursive: `%` matches any run of characters,
`_` matches any single character, and plain characters compare
case-insensitively for ASCII (SQLite's documented default).  Every
recursive call shrinks `pattern.length + s.length`, so the fuel supplied
by `sqlite_like` is never exhausted. -/
def likeMatchF : Nat → List Char → List Char → Bool
  | 0, _, _ => false
  | _ + 1, [], [] => true
  | _ + 1, [], _ :: _ => false
  | f + 1, p :: ps, s =>
      if p = '%' then
        likeMatchF f ps s ||
          (match s with
           | [] => false
           | _ :: cs => likeMatchF f (p :: ps) cs)
      else
        match s with
        | [] => false
        | c :: cs =>
            if p = '_' then likeMatchF f ps cs
            else (p.toLower = c.toLower) && likeMatchF f ps cs

/-- Evaluation of `column LIKE pattern` for SQLite text values. -/
def sqlite_like (pattern s : String) : Bool :=
  likeMatchF (pattern.data.length + s.data.length + 1) pattern.data s.data

/-- The dictionary `COMPANY_INDEX` of source line 65: 4310 maps to "1"
and 8410 to "2". -/
def COMPANY_INDEX : List (String × String) := [("4310", "1"), ("8410", "2")]

/-- Python `dict.get(key, default)` over an association list. -/
def dictGetD (d : List (String × String)) (k dflt : String) : String :=
  match d.find? (fun kv => kv.1 = k) with
  | some kv => kv.2
  | none => dflt

/-- Python `module or "OTHER"`: the default is used when `module` is
`None` or the empty string (the only falsy strings). -/
def pyOrDefault (m : Option String) (dflt : String) : String :=
  match m with
  | none => dflt
  | some s => if s = "" then dflt else s

/-- The `f"{mod}-{comp_idx}-"` value of `next_defect_id`. -/
def defect_id_stem (module : Option String) (company_code : String) : String :=
  pyUpper (pyStrip (pyOrDefault module "OTHER")) ++ "-" ++
    dictGetD COMPANY_INDEX company_code "0" ++ "-"

/-- The `max_num` loop of `next_defect_id`: fold over the fetched
identifiers, parsing the trailing dash-separated segment with `int(...)`
and skipping (via the source's `try/except: continue`) the ones that do
not parse. -/
def max_suffix (rows : List String) : Int :=
  rows.foldl
    (fun acc did =>
      match pyInt (last_dash_segment did) with
      | some n => if n > acc then n else acc
      | none => acc)
    0

/-- Function `next_defect_id` from the source.  `table` is the list of `defect_id`
values currently stored; the SQL query `WHERE defect_id LIKE prefix+'%'`
is the `sqlite_like` filter. -/
def next_defect_id (table : List String) (module : Option String)
    (company_code : String) : String :=
  let stem := defect_id_stem module company_code
  let rows := table.filter (fun did => sqlite_like (stem ++ "%") did)
  stem ++ pad3 (max_suffix rows + 1)

/-- Case-sensitive list-level string prefix test (used to state what the
claim says, as opposed to what `LIKE` does). -/
def startsWithL : List Char → List Char → Bool
  | [], _ => true
  | _ :: _, [] => false
  | c :: cs, d :: ds => (c = d) && startsWithL cs ds

/-- Tests whether `needle` is literally a prefix of `hay`. -/
def str_startsWith (hay needle : String) : Bool :=
  startsWithL needle.data hay.data

/-- Modelled from the spec: the claim's reading of identifier generation,
which **collects all existing defect identifiers with that prefix** — a
literal, case-sensitive prefix test — before parsing suffixes and taking
the maximum.  It differs from `next_defect_id` only in the row-collection
predicate (`str_startsWith` instead of SQLite's case-insensitive
`LIKE`). -/
def next_defect_id_spec (table : List String) (module : Option String)
    (company_code : String) : String :=
  let stem := defect_id_stem module company_code
  let rows := table.filter (fun did => str_startsWith did stem)
  stem ++ pad3 (max_suffix rows + 1)

/-! ### Filtering (streamlit_app.py lines 393-449)

The sidebar search box feeds `pandas.Series.str.contains(search, na=False)`,
whose default is `regex=True`: the query is interpreted as a Python
regular expression.  The model below covers the fragment of regular
expressions in which every character is either a literal or the
metacharacter `.` (match any character); all theorems about filtering
either use queries inside this fragment or hypothesise that the query
contains no regex metacharacter at all, so the model is faithful on every
input it is applied to. -/

/-- Regex atoms of the modelled fragment. -/
inductive RAtom where
  | dot
  | lit (c : Char)
deriving DecidableEq

/-- Parse a pattern of the modelled fragment: `.` becomes the any-char
atom, every other character a literal. -/
def parsePattern (p : String) : List RAtom :=
  p.data.map (fun c => if c = '.' then RAtom.dot else RAtom.lit c)

/-- One atom against one character. -/
def atomMatches : RAtom → Char → Bool
  | .dot, _ => true
  | .lit c, d => c = d

/-- Match the whole atom list at the start of the text (the remainder of
the text is irrelevant, as in `re.search`). -/
def matchHere : List RAtom → List Char → Bool
  | [], _ => true
  | _ :: _, [] => false
  | a :: as, c :: cs => atomMatches a c && matchHere as cs

/-- Try `matchHere` at every start position, left to right. -/
def reSearchAux (pat : List RAtom) : List Char → Bool
  | [] => matchHere pat []
  | c :: cs => matchHere pat (c :: cs) || reSearchAux pat cs

/-- Python `re.search(pattern, text) is not None` for patterns of the
modelled fragment — the semantics of `Series.str.contains` with its
default `regex=True`. -/
def re_search (pattern text : String) : Bool :=
  reSearchAux (parsePattern pattern) text.data

/-- Modelled from the spec: literal case-sensitive substring containment
("a literal string match, not a pattern/regular-expression match"), the
matching the claim asserts the search filter performs on the lowercased
column text. -/
def literalContainsAux (needle : List Char) : List Char → Bool
  | [] => startsWithL needle []
  | c :: cs => startsWithL needle (c :: cs) || literalContainsAux needle cs

/-- Modelled from the spec: `needle` occurs literally inside `hay`. -/
def literalContains (needle hay : String) : Bool :=
  literalContainsAux needle.data hay.data

/-- Regex metacharacters of Python's `re` module.  (The braces are
written by code point to keep them out of the source text.) -/
def isRegexSpecial (c : Char) : Bool :=
  c = '\\' || c = '^' || c = '$' || c = '.' || c = '|' || c = '?' || c = '*' ||
    c = '+' || c = '(' || c = ')' || c = '[' || c = ']' ||
    c = Char.ofNat 123 || c = Char.ofNat 125

/-- The projection of a display-table row that `apply_filters` reads.
(`load_defects_df` produces 22 display columns; the remaining ones do not
influence filtering.) -/
structure DisplayRow where
  companyCode : String
  moduleName : String
  status : String
  priority : String
  currentOwner : String
  responsible : String
  defectID : String
  defectTitle : String
  reportedBy : String
deriving DecidableEq

/-- The sidebar widget state that `apply_filters` closes over.
`owner_filter` and `search` hold the widget text after the source's
`.strip().lower()` (line 401-402). -/
structure FilterState where
  company_choice : String
  module_choice : String
  status_choice : String
  priority_choice : String
  show_closed : Bool
  owner_filter : String
  search : String

/-- The `.strip().lower()` applied to the sidebar text inputs. -/
def mk_search_query (raw : String) : String :=
  pyLower (pyStrip raw)

/-- The `" ".join` concatenation of the three searched columns. -/
def searchBlob (r : DisplayRow) : String :=
  r.defectID ++ " " ++ r.defectTitle ++ " " ++ r.reportedBy

/-- The `" ".join` concatenation of the two owner-filter columns. -/
def ownerBlob (r : DisplayRow) : String :=
  r.currentOwner ++ " " ++ r.responsible

/-- Function `apply_filters` from the source: equality filters for the category
select-boxes, the `Include Closed` toggle, then the two `str.contains`
text filters over lowercased joined columns. -/
def apply_filters (fs : FilterState) (df : List DisplayRow) : List DisplayRow :=
  let out := df
  let out := if fs.company_choice ≠ "All" then out.filter (fun r => r.companyCode = fs.company_choice) else out
  let out := if fs.module_choice ≠ "All" then out.filter (fun r => r.moduleName = fs.module_choice) else out
  let out := if fs.status_choice ≠ "All" then out.filter (fun r => r.status = fs.status_choice) else out
  let out := if fs.priority_choice ≠ "All" then out.filter (fun r => r.priority = fs.priority_choice) else out
  let out := if !fs.show_closed then out.filter (fun r => r.status ≠ "Closed") else out
  let out := if fs.owner_filter ≠ "" then out.filter (fun r => re_search fs.owner_filter (pyLower (ownerBlob r))) else out
  let out := if fs.search ≠ "" then out.filter (fun r => re_search fs.search (pyLower (searchBlob r))) else out
  out

/-- The widget state in which every sidebar filter except the text search
is neutral ("All" choices, closed items included, empty owner filter). -/
def neutralFS (q : String) : FilterState :=
  ⟨"All", "All", "All", "All", true, "", q⟩

/-! ### The `defects` table and `upsert_defect` / `delete_defect`
(streamlit_app.py lines 131-196, 266-350) -/

/-- One stored row of the `defects` table, one field per column of the
schema created by `init_db_and_migrate`.  Dates are stored by the source
as ISO strings via `date_to_str` (`None` for absent); since
`date.isoformat` is injective the stored value is modelled directly as
the optional date. -/
structure DefectRow where
  defect_id : String
  company_code : String
  open_date : Option Date
  moduleName : String
  defect_title : String
  defect_type : String
  priority : String
  status : String
  resolved_date : Option Date
  open_with : String
  reported_by : String
  responsible : String
  current_owner : String
  environment : String
  linked_test_id : String
  description : String
  steps : String
  created_by : String
  created_at : String
  last_updated_by : String
  last_updated_at : String
deriving DecidableEq

/-- The `row: Dict[str, Any]` argument of `upsert_defect`, with one field
per key the function reads.  A key absent from the dict behaves as the
empty string (`row.get(k, "")`); the two date entries keep their Python
runtime value since they go through `parse_any_date`. -/
structure InputRow where
  defectID : String
  companyCode : String
  openDate : PyVal
  moduleName : String
  defectTitle : String
  defectType : String
  priority : String
  status : String
  resolvedDate : PyVal
  openWith : String
  reportedBy : String
  responsible : String
  currentOwner : String
  environment : String
  linkedTestID : String
  description : String
  steps : String
  createdBy : String
  createdAt : String
deriving DecidableEq

/-- The `payload` dict built by `upsert_defect` (lines 277-305),
including the `if is_create:` overwrite of the audit fields. -/
def mkPayload (pdParse : String → Except String Date) (row : InputRow)
    (actor now : String) (is_create : Bool) : DefectRow :=
  let base : DefectRow := {
    defect_id := pyStrip row.defectID
    company_code := pyStrip row.companyCode
    open_date := parse_any_date pdParse row.openDate
    moduleName := pyStrip row.moduleName
    defect_title := pyStrip row.defectTitle
    defect_type := pyStrip row.defectType
    priority := pyStrip row.priority
    status := pyStrip row.status
    resolved_date := parse_any_date pdParse row.resolvedDate
    open_with := pyStrip row.openWith
    reported_by := pyStrip row.reportedBy
    responsible := pyStrip row.responsible
    current_owner := pyStrip row.currentOwner
    environment := pyStrip row.environment
    linked_test_id := pyStrip row.linkedTestID
    description := pyStrip row.description
    steps := pyStrip row.steps
    created_by := pyStrip row.createdBy
    created_at := pyStrip row.createdAt
    last_updated_by := pyStrip actor
    last_updated_at := now }
  if is_create then
    { base with created_by := pyStrip actor, created_at := now,
                last_updated_by := pyStrip actor, last_updated_at := now }
  else base

/-- The `ON CONFLICT(defect_id) DO UPDATE SET ...` column list (lines
321-339): every column is overwritten from the excluded (incoming) row
except `defect_id`, `created_by` and `created_at`, which keep the values
of the existing row. -/
def applyConflictUpdate (old incoming : DefectRow) : DefectRow :=
  { incoming with
      defect_id := old.defect_id
      created_by := old.created_by
      created_at := old.created_at }

/-- The effect of the single `INSERT ... ON CONFLICT(defect_id) DO
UPDATE` statement on the table: if a row with the incoming primary key
exists it is updated in place, otherwise the new row is appended. -/
def sqliteUpsert (table : List DefectRow) (incoming : DefectRow) : List DefectRow :=
  if table.any (fun r => r.defect_id == incoming.defect_id) then
    table.map (fun r =>
      if r.defect_id == incoming.defect_id then applyConflictUpdate r incoming else r)
  else
    table ++ [incoming]

/-- Function `upsert_defect` from the source: validate the identifier, build the
payload, run the upsert statement.  `Except.error` models the raised
`ValueError`. -/
def upsert_defect (pdParse : String → Except String Date)
    (table : List DefectRow) (row : InputRow) (actor now : String)
    (is_create : Bool) : Except String (List DefectRow) :=
  let defect_id := pyStrip row.defectID
  if defect_id = "" then Except.error "Defect ID missing."
  else Except.ok (sqliteUpsert table (mkPayload pdParse row actor now is_create))

/-- Function `upsert_defect` seen from the persistent store: the result flag plus
the table afterwards.  When the function raises, the store is the
untouched input table (the `ValueError` is raised before any SQL runs). -/
def run_upsert (pdParse : String → Except String Date)
    (table : List DefectRow) (row : InputRow) (actor now : String)
    (is_create : Bool) : Except String Unit × List DefectRow :=
  match upsert_defect pdParse table row actor now is_create with
  | .ok t => (.ok (), t)
  | .error e => (.error e, table)

/-- Function `delete_defect`: `DELETE FROM defects WHERE defect_id = ?`. -/
def delete_defect (table : List DefectRow) (defect_id : String) : List DefectRow :=
  table.filter (fun r => !(r.defect_id == defect_id))

/-- Reading one defect back: the row `load_defects_df` renders for a
given identifier (`SELECT *`, every column mapped to its display column
one-to-one; on the date model the `date_to_str`/`parse_any_date`
round trip is the identity). -/
def getDefect (table : List DefectRow) (defect_id : String) : Option DefectRow :=
  table.find? (fun r => r.defect_id == defect_id)

/-- The `defect_id` column of a table. -/
def tableKeys (table : List DefectRow) : List String :=
  table.map (fun r => r.defect_id)

/-! ### Concrete fixtures used by witnesses and counterexamples -/

/-- A pandas parser that fails on every string (all date inputs of the
fixtures below are passed as `PyVal.pydate`/`PyVal.pynone`). -/
def pdNoParse : String → Except String Date := fun _ => .error "unparsable"

/-- A pandas parser recognising a single day-first date string. -/
def pdOneDate : String → Except String Date :=
  fun t => if t = "17/12/2025" then .ok 20439 else .error "unparsable"

/-- Display row whose searched columns contain no dot character. -/
def rowAB : DisplayRow :=
  ⟨"4310", "SD", "New", "P2 - High", "", "", "AB", "", ""⟩

/-- Display row matching the query `sd-1-008`. -/
def rowW1 : DisplayRow :=
  ⟨"4310", "SD", "New", "P2 - High", "alice", "", "SD-1-008", "Login fails", "Bob"⟩

/-- Display row not matching the query `sd-1-008`. -/
def rowW2 : DisplayRow :=
  ⟨"8410", "PP", "Closed", "P4 - Low", "", "", "PP-2-001", "Other", "Eve"⟩

/-- A stored defect row as created by alice at time `t0`. -/
def sampleStored : DefectRow :=
  { defect_id := "SD-1-001", company_code := "4310", open_date := some 20400,
    moduleName := "SD", defect_title := "Login fails", defect_type := "Functional",
    priority := "P2 - High", status := "New", resolved_date := none,
    open_with := "SDS", reported_by := "rep", responsible := "",
    current_owner := "alice", environment := "P1S", linked_test_id := "",
    description := "", steps := "", created_by := "alice", created_at := "t0",
    last_updated_by := "alice", last_updated_at := "t0" }

/-- An input row (form contents) for a fresh defect `SD-1-002`. -/
def sampleInput : InputRow :=
  { defectID := "SD-1-002", companyCode := "4310", openDate := .pydate 20400,
    moduleName := "SD", defectTitle := "Other bug", defectType := "Functional",
    priority := "P2 - High", status := "New", resolvedDate := .pynone,
    openWith := "SDS", reportedBy := "rep", responsible := "",
    currentOwner := "", environment := "P1S", linkedTestID := "",
    description := "", steps := "", createdBy := "", createdAt := "" }

/-- A stored row with identifier `X` created by alice. -/
def c5old : DefectRow :=
  { sampleStored with defect_id := "X", created_by := "alice", created_at := "t0" }

/-- An input row for identifier `X` supplying its own audit values. -/
def c5in : InputRow :=
  { sampleInput with
      defectID := "X"
      createdBy := "supplied-creator"
      createdAt := "supplied-time" }

/-- An input row editing the stored defect `SD-1-001`. -/
def c6in : InputRow :=
  { sampleInput with
      defectID := "SD-1-001"
      defectTitle := "Edited title"
      status := "In Progress"
      currentOwner := "bob" }

/-- An input row whose identifier is whitespace only. -/
def c7in : InputRow := { sampleInput with defectID := "   " }

/-! ## Claim theorems -/

/-- C1: `compute_age_days` returns `none` exactly when the open date is
absent; otherwise it returns `max 0 (end - open_date)` where `end` is the
resolved date for terminal statuses with a resolved date present and the
current date otherwise; the result is never negative, and a resolution
date at or before the open date is clamped to zero. -/
theorem C1_compute_age_days (today o r : Date) (rd : Option Date) (st : String) :
    compute_age_days today none rd st = none ∧
    (st = "Resolved" ∨ st = "Closed" →
      compute_age_days today (some o) (some r) st = some (max 0 (r - o))) ∧
    (¬(st = "Resolved" ∨ st = "Closed") →
      compute_age_days today (some o) rd st = some (max 0 (today - o))) ∧
    compute_age_days today (some o) none st = some (max 0 (today - o)) ∧
    (∀ od n, compute_age_days today od rd st = some n → 0 ≤ n) ∧
    (st = "Resolved" ∨ st = "Closed" → r ≤ o →
      compute_age_days today (some o) (some r) st = some 0) := by
  refine ⟨rfl, ?_, ?_, rfl, ?_, ?_⟩
  · intro h
    simp [compute_age_days, if_pos h]
  · intro h
    cases rd with
    | none => simp [compute_age_days]
    | some r2 => simp [compute_age_days, if_neg h]
  · intro od n h
    cases od with
    | none => simp [compute_age_days] at h
    | some o2 =>
        simp [compute_age_days] at h
        exact h ▸ le_max_left 0 _
  · intro h hro
    simp [compute_age_days, if_pos h]
    exact hro

/-- C1 witness: the theorem applied at concrete dates, statuses and
resolution dates. -/
theorem C1_witness :
    compute_age_days 10 (some 3) (some 7) "Resolved" = some (max 0 (7 - 3)) ∧
    compute_age_days 10 (some 3) (some 8) "New" = some (max 0 (10 - 3)) ∧
    compute_age_days 10 (some 5) (some 2) "Closed" = some 0 ∧
    (0 : Int) ≤ 7 :=
  ⟨(C1_compute_age_days 10 3 7 (some 7) "Resolved").2.1 (Or.inl rfl),
   (C1_compute_age_days 10 3 8 (some 8) "New").2.2.1 (by decide),
   (C1_compute_age_days 10 5 2 (some 2) "Closed").2.2.2.2.2 (Or.inr rfl) (by decide),
   (C1_compute_age_days 10 3 0 (some 8) "New").2.2.2.2.1 (some 3) 7 (by decide)⟩

/-- C7: `upsert_defect` raises `ValueError("Defect ID missing.")` whenever
the supplied identifier is empty after stripping whitespace, for create
and update alike, and the table is left unchanged. -/
theorem C7_empty_id_error (pdParse : String → Except String Date)
    (table : List DefectRow) (row : InputRow) (actor now : String) (is_create : Bool)
    (h : pyStrip row.defectID = "") :
    run_upsert pdParse table row actor now is_create =
      (Except.error "Defect ID missing.", table) := by
  simp [run_upsert, upsert_defect, h]

/-- C7 witness: a whitespace-only identifier aborts the operation and
leaves the single-row store untouched. -/
theorem C7_witness :
    run_upsert pdNoParse [sampleStored] c7in "bob" "t1" true =
      (Except.error "Defect ID missing.", [sampleStored]) :=
  C7_empty_id_error pdNoParse [sampleStored] c7in "bob" "t1" true (by decide)

/-- C8: the aging-bucket classification maps ages at most 2 to `0–2`,
ages 3 to 7 to `3–7`, ages 8 to 14 to `8–14`, larger ages to `15+`, and an
absent age to `Unknown`, boundaries inclusive on the upper end. -/
theorem C8_bucket (a : Int) :
    bucket none = "Unknown" ∧
    (a ≤ 2 → bucket (some a) = "0–2") ∧
    (2 < a → a ≤ 7 → bucket (some a) = "3–7") ∧
    (7 < a → a ≤ 14 → bucket (some a) = "8–14") ∧
    (14 < a → bucket (some a) = "15+") := by
  refine ⟨rfl, ?_, ?_, ?_, ?_⟩
  · intro h1
    simp only [bucket]
    rw [if_pos h1]
  · intro h1 h2
    simp only [bucket]
    rw [if_neg (by omega), if_pos h2]
  · intro h1 h2
    simp only [bucket]
    rw [if_neg (by omega), if_neg (by omega), if_pos h2]
  · intro h1
    simp only [bucket]
    rw [if_neg (by omega), if_neg (by omega), if_neg (by omega)]

/-- C8 witness: the theorem applied at each boundary value and at an
absent age. -/
theorem C8_witness :
    bucket none = "Unknown" ∧ bucket (some 2) = "0–2" ∧ bucket (some 7) = "3–7" ∧
    bucket (some 14) = "8–14" ∧ bucket (some 15) = "15+" :=
  ⟨(C8_bucket 0).1,
   (C8_bucket 2).2.1 (by decide),
   (C8_bucket 7).2.2.1 (by decide) (by decide),
   (C8_bucket 14).2.2.2.1 (by decide) (by decide),
   (C8_bucket 15).2.2.2.2 (by decide)⟩

/-- C9: `parse_any_date` is total and lenient — `None` for a `None`
input, the date itself for date/datetime inputs, `None` for blank or
`nan`/`none`/`null` strings however cased, `None` whenever the pandas
parser raises, and the parsed date when it succeeds; no input makes it
raise. -/
theorem C9_parse_any_date (pdParse : String → Except String Date)
    (d dd : Date) (s e : String) :
    parse_any_date pdParse .pynone = none ∧
    parse_any_date pdParse (.pydatetime d) = some d ∧
    parse_any_date pdParse (.pydate d) = some d ∧
    (pyStrip s = "" → parse_any_date pdParse (.pystr s) = none) ∧
    (pyLower (pyStrip s) = "nan" ∨ pyLower (pyStrip s) = "none" ∨ pyLower (pyStrip s) = "null" →
      parse_any_date pdParse (.pystr s) = none) ∧
    (pdParse (pyStrip s) = .error e → parse_any_date pdParse (.pystr s) = none) ∧
    (¬(pyStrip s = "" ∨ pyLower (pyStrip s) = "nan" ∨ pyLower (pyStrip s) = "none" ∨
        pyLower (pyStrip s) = "null") →
      pdParse (pyStrip s) = .ok dd → parse_any_date pdParse (.pystr s) = some dd) := by
  refine ⟨rfl, rfl, rfl, ?_, ?_, ?_, ?_⟩
  · intro h
    simp [parse_any_date, h]
  · intro h
    simp only [parse_any_date]
    rw [if_pos (Or.inr h)]
  · intro h
    simp only [parse_any_date]
    by_cases hb : pyStrip s = "" ∨ pyLower (pyStrip s) = "nan" ∨ pyLower (pyStrip s) = "none" ∨
        pyLower (pyStrip s) = "null"
    · rw [if_pos hb]
    · rw [if_neg hb, h]
  · intro hb h
    simp only [parse_any_date]
    rw [if_neg hb, h]

/-- C9 witness: the theorem applied with a parser recognising one
day-first date string, at a sentinel, an unparsable and a parsable
input. -/
theorem C9_witness :
    parse_any_date pdOneDate .pynone = none ∧
    parse_any_date pdOneDate (.pydate 20400) = some 20400 ∧
    parse_any_date pdOneDate (.pystr "  ") = none ∧
    parse_any_date pdOneDate (.pystr " NULL ") = none ∧
    parse_any_date pdOneDate (.pystr "garbage") = none ∧
    parse_any_date pdOneDate (.pystr " 17/12/2025 ") = some 20439 :=
  ⟨(C9_parse_any_date pdOneDate 0 0 "" "").1,
   (C9_parse_any_date pdOneDate 20400 0 "" "").2.2.1,
   (C9_parse_any_date pdOneDate 0 0 "  " "").2.2.2.1 (by decide),
   (C9_parse_any_date pdOneDate 0 0 " NULL " "").2.2.2.2.1 (by decide),
   (C9_parse_any_date pdOneDate 0 0 "garbage" "unparsable").2.2.2.2.2.1 rfl,
   (C9_parse_any_date pdOneDate 0 20439 " 17/12/2025 " "").2.2.2.2.2.2 (by decide) rfl⟩

/-- C10: `next_defect_id` is total and never raises: a company code
outside the two known ones maps to organisation index `0`, a `None` or
empty module falls back to `OTHER`, and stored identifiers whose trailing
dash-separated segment does not parse as an integer are skipped by the
maximum computation instead of failing. -/
theorem C10_next_defect_id_total (table : List String) (m : Option String)
    (cc did : String)
    (h1 : cc ≠ "4310") (h2 : cc ≠ "8410")
    (h3 : pyInt (last_dash_segment did) = none) :
    dictGetD COMPANY_INDEX cc "0" = "0" ∧
    next_defect_id table none cc = next_defect_id table (some "OTHER") cc ∧
    next_defect_id table (some "") cc = next_defect_id table (some "OTHER") cc ∧
    next_defect_id (did :: table) m cc = next_defect_id table m cc := by
  refine ⟨?_, rfl, rfl, ?_⟩
  · have g1 : ("4310" : String) ≠ cc := fun hh => h1 hh.symm
    have g2 : ("8410" : String) ≠ cc := fun hh => h2 hh.symm
    simp [dictGetD, COMPANY_INDEX, List.find?, g1, g2]
  · unfold next_defect_id
    cases hl : sqlite_like (defect_id_stem m cc ++ "%") did
    · simp [List.filter_cons, hl]
    · simp [List.filter_cons, hl, max_suffix, h3]

/-- C10 witness: the theorem applied with an unknown company code and an
identifier whose suffix is not numeric. -/
theorem C10_witness :
    dictGetD COMPANY_INDEX "9999" "0" = "0" ∧
    next_defect_id ["SD-1-ABC"] none "9999" = next_defect_id ["SD-1-ABC"] (some "OTHER") "9999" ∧
    next_defect_id ["SD-1-ABC"] (some "") "9999" = next_defect_id ["SD-1-ABC"] (some "OTHER") "9999" ∧
    next_defect_id ["SD-1-ABC", "SD-1-007"] (some "SD") "9999" =
      next_defect_id ["SD-1-007"] (some "SD") "9999" :=
  C10_next_defect_id_total ["SD-1-007"] (some "SD") "9999" "SD-1-ABC"
    (by decide) (by decide) (by decide)

/-- C2 fails as stated: the SQL query `defect_id LIKE prefix || '%'` is
case-insensitive for ASCII, so a stored identifier `sd-1-007` that does
**not** carry the prefix `SD-1-` is still collected, and the next
identifier becomes `SD-1-008` where the claim's per-prefix reading
(`next_defect_id_spec`) yields `SD-1-001`. -/
theorem C2_counterexample :
    next_defect_id ["sd-1-007"] (some "SD") "4310" = "SD-1-008" ∧
    next_defect_id_spec ["sd-1-007"] (some "SD") "4310" = "SD-1-001" ∧
    str_startsWith "sd-1-007" "SD-1-" = false := by
  exact ⟨by decide, by decide, by decide⟩

/-- C2 amended: `next_defect_id` builds the prefix `<MODULE>-<ORG-INDEX>-`,
collects the identifiers matching the prefix **case-insensitively**
(SQLite `LIKE`), parses the trailing numeric suffixes, and emits the
prefix followed by `max+1` zero-padded to three digits; when `LIKE`
matching coincides with the literal prefix test on every stored
identifier the per-prefix description of the claim holds, and the two
concrete examples hold as stated. -/
theorem C2_next_defect_id_amended (table : List String) (m : Option String) (cc : String)
    (h : ∀ did ∈ table,
        sqlite_like (defect_id_stem m cc ++ "%") did =
          str_startsWith did (defect_id_stem m cc)) :
    next_defect_id table m cc = next_defect_id_spec table m cc ∧
    next_defect_id [] (some "SD") "4310" = "SD-1-001" ∧
    next_defect_id ["SD-1-007"] (some "SD") "4310" = "SD-1-008" := by
  refine ⟨?_, by decide, by decide⟩
  simp only [next_defect_id, next_defect_id_spec]
  rw [List.filter_congr h]

/-- C2 witness: the theorem applied to a store whose identifiers all
match the prefix casing, giving the spec-level per-prefix counting and
both examples. -/
theorem C2_witness :
    next_defect_id ["SD-1-007", "PP-2-003"] (some "SD") "4310" =
      next_defect_id_spec ["SD-1-007", "PP-2-003"] (some "SD") "4310" ∧
    next_defect_id [] (some "SD") "4310" = "SD-1-001" ∧
    next_defect_id ["SD-1-007"] (some "SD") "4310" = "SD-1-008" :=
  C2_next_defect_id_amended ["SD-1-007", "PP-2-003"] (some "SD") "4310" (by decide)

/-- A pattern of literal atoms matches at the front exactly when the
literal characters are a prefix. -/
theorem matchHere_lit (cs s : List Char) :
    matchHere (cs.map RAtom.lit) s = startsWithL cs s := by
  induction cs generalizing s with
  | nil => cases s <;> rfl
  | cons c cs ih =>
      cases s with
      | nil => rfl
      | cons d ds => simp [matchHere, startsWithL, atomMatches, ih]

/-- Searching a pattern of literal atoms is literal substring
containment. -/
theorem reSearchAux_lit (cs : List Char) (s : List Char) :
    reSearchAux (cs.map RAtom.lit) s = literalContainsAux cs s := by
  induction s with
  | nil => simp [reSearchAux, literalContainsAux, matchHere_lit]
  | cons c s ih => simp [reSearchAux, literalContainsAux, matchHere_lit, ih]

/-- A query without regex metacharacters parses to literal atoms only. -/
theorem parsePattern_no_special (q : String)
    (h : q.data.all (fun c => !(isRegexSpecial c)) = true) :
    parsePattern q = q.data.map RAtom.lit := by
  unfold parsePattern
  apply List.map_congr_left
  intro c hc
  have hcs := (List.all_eq_true.mp h) c hc
  have : ¬(c = '.') := by
    intro hdot
    subst hdot
    simp [isRegexSpecial] at hcs
  rw [if_neg this]

/-- On metacharacter-free queries, `re.search` containment coincides with
literal substring containment. -/
theorem re_search_eq_literal (q s : String)
    (h : q.data.all (fun c => !(isRegexSpecial c)) = true) :
    re_search q s = literalContains q s := by
  unfold re_search literalContains
  rw [parsePattern_no_special q h, reSearchAux_lit]

/-- The empty needle is contained in every haystack. -/
theorem literalContainsAux_nil (l : List Char) : literalContainsAux [] l = true := by
  cases l <;> simp [literalContainsAux, startsWithL]

/-- With every sidebar filter neutral, `apply_filters` is exactly the
text-search step. -/
theorem apply_filters_neutral (q : String) (df : List DisplayRow) :
    apply_filters (neutralFS q) df =
      if q ≠ "" then df.filter (fun r => re_search q (pyLower (searchBlob r))) else df := by
  simp [apply_filters, neutralFS]

/-- C3 fails as stated: the search text feeds
`Series.str.contains(search, na=False)` whose default is `regex=True`, so
the query is a regular expression, not a literal string.  The query `.`
keeps a row whose searched columns contain no dot at all. -/
theorem C3_counterexample :
    apply_filters (neutralFS (mk_search_query ".")) [rowAB] = [rowAB] ∧
    literalContains (mk_search_query ".") (pyLower (searchBlob rowAB)) = false := by
  exact ⟨by decide, by decide⟩

/-- C3 amended: the text-search filter keeps exactly the rows whose
lowercased concatenation of Defect ID, Defect Title and Reported By
matches the stripped, lowercased query as a regular expression; for
queries free of regex metacharacters this is exactly case-insensitive
literal substring containment, and the empty query excludes no rows. -/
theorem C3_search_amended (df : List DisplayRow) (raw : String)
    (h : (mk_search_query raw).data.all (fun c => !(isRegexSpecial c)) = true) :
    apply_filters (neutralFS (mk_search_query raw)) df =
      df.filter (fun r => literalContains (mk_search_query raw) (pyLower (searchBlob r))) ∧
    apply_filters (neutralFS (mk_search_query "")) df = df := by
  constructor
  · rw [apply_filters_neutral]
    by_cases hq : mk_search_query raw = ""
    · rw [if_neg (by simp [hq]), hq]
      have hall : ∀ r ∈ df,
          (fun r => literalContains "" (pyLower (searchBlob r))) r = (fun _ => true) r :=
        fun r _ => literalContainsAux_nil (pyLower (searchBlob r)).data
      rw [List.filter_congr hall, List.filter_true]
    · rw [if_pos hq]
      exact List.filter_congr (fun r _ => re_search_eq_literal _ _ h)
  · rw [apply_filters_neutral]
    rw [if_neg (by decide)]

/-- C3 witness: the theorem applied to a two-row table and the query
`" SD-1-008 "`, which after stripping and lowercasing contains no regex
metacharacter; the filter keeps exactly the literally-matching row, and
the empty query keeps both rows. -/
theorem C3_witness :
    apply_filters (neutralFS (mk_search_query " SD-1-008 ")) [rowW1, rowW2] =
      List.filter (fun r => literalContains (mk_search_query " SD-1-008 ")
        (pyLower (searchBlob r))) [rowW1, rowW2] ∧
    apply_filters (neutralFS (mk_search_query "")) [rowW1, rowW2] = [rowW1, rowW2] :=
  C3_search_amended [rowW1, rowW2] " SD-1-008 " (by decide)

/-- The payload's primary key is the stripped input identifier for create
and update alike. -/
theorem mkPayload_defect_id (pdParse : String → Except String Date) (row : InputRow)
    (actor now : String) (is_create : Bool) :
    (mkPayload pdParse row actor now is_create).defect_id = pyStrip row.defectID := by
  cases is_create <;> rfl

/-- Counting rows by key equals counting the key among the table keys. -/
theorem countP_eq_count_keys (table : List DefectRow) (id : String) :
    table.countP (fun r => r.defect_id == id) = (tableKeys table).count id := by
  induction table with
  | nil => rfl
  | cons a t ih => simp [tableKeys, List.countP_cons, List.count_cons, ih]

/-- When the incoming key is already present, the upsert leaves the key
column unchanged. -/
theorem tableKeys_sqliteUpsert_mem (table : List DefectRow) (p : DefectRow)
    (h : table.any (fun r => r.defect_id == p.defect_id) = true) :
    tableKeys (sqliteUpsert table p) = tableKeys table := by
  unfold sqliteUpsert
  rw [if_pos h]
  unfold tableKeys
  rw [List.map_map]
  apply List.map_congr_left
  intro r _
  by_cases hr : (r.defect_id == p.defect_id) = true
  · have he : r.defect_id = p.defect_id := eq_of_beq hr
    simp [he, applyConflictUpdate]
  · have he : ¬(r.defect_id = p.defect_id) := fun hh => hr (by simp [hh])
    simp [he]

/-- When the incoming key is absent, the upsert appends it. -/
theorem tableKeys_sqliteUpsert_new (table : List DefectRow) (p : DefectRow)
    (h : table.any (fun r => r.defect_id == p.defect_id) = false) :
    tableKeys (sqliteUpsert table p) = tableKeys table ++ [p.defect_id] := by
  unfold sqliteUpsert
  rw [if_neg (by simp [h])]
  simp [tableKeys]

/-- Deletion only removes rows, so it preserves key uniqueness. -/
theorem tableKeys_delete_nodup (table : List DefectRow) (x : String)
    (h : (tableKeys table).Nodup) : (tableKeys (delete_defect table x)).Nodup :=
  List.Nodup.sublist ((List.filter_sublist table).map _) h

/-- The first row found under the upserted key, after an in-place
conflict update, is the updated form of the first row found before. -/
theorem find?_map_update (table : List DefectRow) (q old : DefectRow)
    (h : table.find? (fun r => r.defect_id == q.defect_id) = some old) :
    (table.map (fun r =>
        if r.defect_id == q.defect_id then applyConflictUpdate r q else r)).find?
      (fun r => r.defect_id == q.defect_id) = some (applyConflictUpdate old q) := by
  induction table with
  | nil => simp at h
  | cons a t ih =>
      by_cases ha : (a.defect_id == q.defect_id) = true
      · rw [List.find?_cons_of_pos (p := fun (r : DefectRow) => r.defect_id == q.defect_id) _ ha] at h
        cases h
        rw [List.map_cons, if_pos ha]
        exact List.find?_cons_of_pos (p := fun (r : DefectRow) => r.defect_id == q.defect_id) _ ha
      · rw [List.find?_cons_of_neg (p := fun (r : DefectRow) => r.defect_id == q.defect_id) _ ha] at h
        rw [List.map_cons, if_neg ha]
        rw [List.find?_cons_of_neg (p := fun (r : DefectRow) => r.defect_id == q.defect_id) _ ha]
        exact ih h

/-- Looking up a key that misses the whole prefix finds the appended
row. -/
theorem find?_append_singleton (table : List DefectRow) (p : DefectRow) (id : String)
    (hnone : table.find? (fun r => r.defect_id == id) = none)
    (hp : (p.defect_id == id) = true) :
    (table ++ [p]).find? (fun r => r.defect_id == id) = some p := by
  rw [List.find?_append, hnone]
  simp [List.find?, hp]

/-- C4: after any successful `upsert_defect` with a non-empty identifier,
exactly one row of the table carries that identifier, whether or not one
existed before; key uniqueness (the `defect_id` primary key) is preserved
by the upsert and by a subsequent delete. -/
theorem C4_upsert_unique_row (pdParse : String → Except String Date)
    (table : List DefectRow) (row : InputRow) (actor now : String) (is_create : Bool)
    (x : String)
    (hnd : (tableKeys table).Nodup)
    (hid : pyStrip row.defectID ≠ "") :
    (run_upsert pdParse table row actor now is_create).2.countP
        (fun r => r.defect_id == pyStrip row.defectID) = 1 ∧
    (tableKeys (run_upsert pdParse table row actor now is_create).2).Nodup ∧
    (tableKeys (delete_defect
        (run_upsert pdParse table row actor now is_create).2 x)).Nodup := by
  have hrun : (run_upsert pdParse table row actor now is_create).2 =
      sqliteUpsert table (mkPayload pdParse row actor now is_create) := by
    simp [run_upsert, upsert_defect, hid]
  rw [hrun]
  set p := mkPayload pdParse row actor now is_create with hp
  have hkey : p.defect_id = pyStrip row.defectID :=
    mkPayload_defect_id pdParse row actor now is_create
  by_cases hmem : table.any (fun r => r.defect_id == p.defect_id) = true
  · have hkeys := tableKeys_sqliteUpsert_mem table p hmem
    have hcount : (tableKeys table).count p.defect_id = 1 := by
      obtain ⟨r, hrmem, hrq⟩ := List.any_eq_true.mp hmem
      have hmemkeys : p.defect_id ∈ tableKeys table := by
        rw [← eq_of_beq hrq]
        exact List.mem_map_of_mem _ hrmem
      have h1 : 0 < (tableKeys table).count p.defect_id :=
        List.count_pos_iff.mpr hmemkeys
      have h2 := (List.nodup_iff_count_le_one.mp hnd) p.defect_id
      omega
    have hnd2 : (tableKeys (sqliteUpsert table p)).Nodup := hkeys ▸ hnd
    refine ⟨?_, hnd2, tableKeys_delete_nodup _ x hnd2⟩
    rw [countP_eq_count_keys, hkeys, ← hkey, hcount]
  · have hF : table.any (fun r => r.defect_id == p.defect_id) = false := by
      revert hmem
      cases table.any (fun r => r.defect_id == p.defect_id) <;> simp
    have hnotmem : p.defect_id ∉ tableKeys table := by
      intro hin
      obtain ⟨r, hrmem, hreq⟩ := List.mem_map.mp hin
      have : table.any (fun r => r.defect_id == p.defect_id) = true :=
        List.any_eq_true.mpr ⟨r, hrmem, by simp [hreq]⟩
      rw [hF] at this
      exact Bool.false_ne_true this
    have hkeys := tableKeys_sqliteUpsert_new table p hF
    have hnd2 : (tableKeys (sqliteUpsert table p)).Nodup := by
      rw [hkeys]
      exact List.nodup_append.mpr
        ⟨hnd, List.nodup_singleton _,
         fun a ha hb => hnotmem (by rwa [List.mem_singleton.mp hb] at ha)⟩
    refine ⟨?_, hnd2, tableKeys_delete_nodup _ x hnd2⟩
    rw [countP_eq_count_keys, hkeys, ← hkey, List.count_append]
    rw [List.count_eq_zero.mpr hnotmem]
    simp

/-- C4 witness: creating defect `SD-1-002` in a one-row store leaves
exactly one row under that identifier and keeps all keys unique, also
after deleting an arbitrary identifier. -/
theorem C4_witness :
    (run_upsert pdNoParse [sampleStored] sampleInput "bob" "t1" true).2.countP
        (fun r => r.defect_id == pyStrip sampleInput.defectID) = 1 ∧
    (tableKeys (run_upsert pdNoParse [sampleStored] sampleInput "bob" "t1" true).2).Nodup ∧
    (tableKeys (delete_defect
        (run_upsert pdNoParse [sampleStored] sampleInput "bob" "t1" true).2
        "SD-1-001")).Nodup :=
  C4_upsert_unique_row pdNoParse [sampleStored] sampleInput "bob" "t1" true "SD-1-001"
    (by decide) (by decide)

/-- C5 fails as stated: calling `upsert_defect` with `is_create = true`
for an identifier that already exists triggers the `ON CONFLICT` update,
which does **not** set `created_by`/`created_at`; the stored row keeps
alice's audit values although the actor is bob. -/
theorem C5_counterexample :
    (getDefect (run_upsert pdNoParse [c5old] c5in "bob" "t1" true).2 "X").map
        DefectRow.created_by = some "alice" ∧
    (getDefect (run_upsert pdNoParse [c5old] c5in "bob" "t1" true).2 "X").map
        DefectRow.created_at = some "t0" ∧
    pyStrip "bob" = "bob" ∧ ("alice" : String) ≠ "bob" ∧ ("t0" : String) ≠ "t1" := by
  exact ⟨rfl, rfl, by decide, by decide, by decide⟩

/-- C5 amended: when `upsert_defect` is called with `is_create = true`
**and no row with that identifier exists yet**, the new row is appended
with `created_by`/`last_updated_by` equal to the (stripped) actor and
`created_at`/`last_updated_at` equal to the current timestamp, regardless
of any supplied Created By / Created At values; reading the defect back
yields the supplied attribute set (each text field stripped, dates
parsed) with the last-updated pair equal to the created pair. -/
theorem C5_create_amended (pdParse : String → Except String Date)
    (table : List DefectRow) (row : InputRow) (actor now : String)
    (hid : pyStrip row.defectID ≠ "")
    (hfresh : table.find? (fun r => r.defect_id == pyStrip row.defectID) = none) :
    upsert_defect pdParse table row actor now true =
      .ok (table ++ [mkPayload pdParse row actor now true]) ∧
    getDefect (table ++ [mkPayload pdParse row actor now true]) (pyStrip row.defectID) =
      some (mkPayload pdParse row actor now true) ∧
    (mkPayload pdParse row actor now true).created_by = pyStrip actor ∧
    (mkPayload pdParse row actor now true).created_at = now ∧
    (mkPayload pdParse row actor now true).last_updated_by =
      (mkPayload pdParse row actor now true).created_by ∧
    (mkPayload pdParse row actor now true).last_updated_at =
      (mkPayload pdParse row actor now true).created_at ∧
    (mkPayload pdParse row actor now true).defect_id = pyStrip row.defectID ∧
    (mkPayload pdParse row actor now true).company_code = pyStrip row.companyCode ∧
    (mkPayload pdParse row actor now true).open_date = parse_any_date pdParse row.openDate ∧
    (mkPayload pdParse row actor now true).moduleName = pyStrip row.moduleName ∧
    (mkPayload pdParse row actor now true).defect_title = pyStrip row.defectTitle ∧
    (mkPayload pdParse row actor now true).defect_type = pyStrip row.defectType ∧
    (mkPayload pdParse row actor now true).priority = pyStrip row.priority ∧
    (mkPayload pdParse row actor now true).status = pyStrip row.status ∧
    (mkPayload pdParse row actor now true).resolved_date =
      parse_any_date pdParse row.resolvedDate ∧
    (mkPayload pdParse row actor now true).open_with = pyStrip row.openWith ∧
    (mkPayload pdParse row actor now true).reported_by = pyStrip row.reportedBy ∧
    (mkPayload pdParse row actor now true).responsible = pyStrip row.responsible ∧
    (mkPayload pdParse row actor now true).current_owner = pyStrip row.currentOwner ∧
    (mkPayload pdParse row actor now true).environment = pyStrip row.environment ∧
    (mkPayload pdParse row actor now true).linked_test_id = pyStrip row.linkedTestID ∧
    (mkPayload pdParse row actor now true).description = pyStrip row.description ∧
    (mkPayload pdParse row actor now true).steps = pyStrip row.steps := by
  have hF : table.any (fun r => r.defect_id == pyStrip row.defectID) = false := by
    rcases hall : table.any (fun r => r.defect_id == pyStrip row.defectID) with _ | _
    · rfl
    · obtain ⟨r, hrmem, hrq⟩ := List.any_eq_true.mp hall
      have := (List.find?_eq_none.mp hfresh) r hrmem
      exact absurd hrq this
  refine ⟨?_, ?_, rfl, rfl, rfl, rfl, rfl, rfl, rfl, rfl, rfl, rfl, rfl, rfl, rfl,
    rfl, rfl, rfl, rfl, rfl, rfl, rfl, rfl⟩
  · simp only [upsert_defect, if_neg hid, sqliteUpsert]
    rw [mkPayload_defect_id]
    rw [if_neg (by simp [hF])]
  · exact find?_append_singleton table _ _ hfresh
      (by rw [mkPayload_defect_id]; exact beq_self_eq_true _)

/-- C5 witness: creating `SD-1-002` in a store that does not contain it;
the appended row carries bob's audit stamps and the stripped supplied
fields. -/
theorem C5_witness :
    upsert_defect pdNoParse [sampleStored] sampleInput "bob" "t1" true =
      .ok ([sampleStored] ++ [mkPayload pdNoParse sampleInput "bob" "t1" true]) ∧
    getDefect ([sampleStored] ++ [mkPayload pdNoParse sampleInput "bob" "t1" true])
        (pyStrip sampleInput.defectID) =
      some (mkPayload pdNoParse sampleInput "bob" "t1" true) ∧
    (mkPayload pdNoParse sampleInput "bob" "t1" true).created_by = pyStrip "bob" ∧
    (mkPayload pdNoParse sampleInput "bob" "t1" true).created_at = "t1" ∧
    (mkPayload pdNoParse sampleInput "bob" "t1" true).last_updated_by =
      (mkPayload pdNoParse sampleInput "bob" "t1" true).created_by ∧
    (mkPayload pdNoParse sampleInput "bob" "t1" true).last_updated_at =
      (mkPayload pdNoParse sampleInput "bob" "t1" true).created_at ∧
    (mkPayload pdNoParse sampleInput "bob" "t1" true).defect_id =
      pyStrip sampleInput.defectID ∧
    (mkPayload pdNoParse sampleInput "bob" "t1" true).company_code =
      pyStrip sampleInput.companyCode ∧
    (mkPayload pdNoParse sampleInput "bob" "t1" true).open_date =
      parse_any_date pdNoParse sampleInput.openDate ∧
    (mkPayload pdNoParse sampleInput "bob" "t1" true).moduleName =
      pyStrip sampleInput.moduleName ∧
    (mkPayload pdNoParse sampleInput "bob" "t1" true).defect_title =
      pyStrip sampleInput.defectTitle ∧
    (mkPayload pdNoParse sampleInput "bob" "t1" true).defect_type =
      pyStrip sampleInput.defectType ∧
    (mkPayload pdNoParse sampleInput "bob" "t1" true).priority =
      pyStrip sampleInput.priority ∧
    (mkPayload pdNoParse sampleInput "bob" "t1" true).status =
      pyStrip sampleInput.status ∧
    (mkPayload pdNoParse sampleInput "bob" "t1" true).resolved_date =
      parse_any_date pdNoParse sampleInput.resolvedDate ∧
    (mkPayload pdNoParse sampleInput "bob" "t1" true).open_with =
      pyStrip sampleInput.openWith ∧
    (mkPayload pdNoParse sampleInput "bob" "t1" true).reported_by =
      pyStrip sampleInput.reportedBy ∧
    (mkPayload pdNoParse sampleInput "bob" "t1" true).responsible =
      pyStrip sampleInput.responsible ∧
    (mkPayload pdNoParse sampleInput "bob" "t1" true).current_owner =
      pyStrip sampleInput.currentOwner ∧
    (mkPayload pdNoParse sampleInput "bob" "t1" true).environment =
      pyStrip sampleInput.environment ∧
    (mkPayload pdNoParse sampleInput "bob" "t1" true).linked_test_id =
      pyStrip sampleInput.linkedTestID ∧
    (mkPayload pdNoParse sampleInput "bob" "t1" true).description =
      pyStrip sampleInput.description ∧
    (mkPayload pdNoParse sampleInput "bob" "t1" true).steps =
      pyStrip sampleInput.steps :=
  C5_create_amended pdNoParse [sampleStored] sampleInput "bob" "t1"
    (by decide) (by decide)

/-- C6: updating an existing row leaves its `created_by`/`created_at`
unchanged, sets `last_updated_by` to the (stripped) actor and
`last_updated_at` to the current timestamp, and replaces every other
column with the supplied (stripped/parsed) values. -/
theorem C6_update_preserves_created (pdParse : String → Except String Date)
    (table : List DefectRow) (row : InputRow) (actor now : String) (old : DefectRow)
    (hid : pyStrip row.defectID ≠ "")
    (hfind : table.find? (fun r => r.defect_id == pyStrip row.defectID) = some old) :
    upsert_defect pdParse table row actor now false =
      .ok (table.map (fun r =>
        if r.defect_id == pyStrip row.defectID
        then applyConflictUpdate r (mkPayload pdParse row actor now false) else r)) ∧
    getDefect (table.map (fun r =>
        if r.defect_id == pyStrip row.defectID
        then applyConflictUpdate r (mkPayload pdParse row actor now false) else r))
        (pyStrip row.defectID) =
      some (applyConflictUpdate old (mkPayload pdParse row actor now false)) ∧
    (applyConflictUpdate old (mkPayload pdParse row actor now false)).created_by =
      old.created_by ∧
    (applyConflictUpdate old (mkPayload pdParse row actor now false)).created_at =
      old.created_at ∧
    (applyConflictUpdate old (mkPayload pdParse row actor now false)).last_updated_by =
      pyStrip actor ∧
    (applyConflictUpdate old (mkPayload pdParse row actor now false)).last_updated_at =
      now ∧
    (applyConflictUpdate old (mkPayload pdParse row actor now false)).company_code =
      pyStrip row.companyCode ∧
    (applyConflictUpdate old (mkPayload pdParse row actor now false)).open_date =
      parse_any_date pdParse row.openDate ∧
    (applyConflictUpdate old (mkPayload pdParse row actor now false)).moduleName =
      pyStrip row.moduleName ∧
    (applyConflictUpdate old (mkPayload pdParse row actor now false)).defect_title =
      pyStrip row.defectTitle ∧
    (applyConflictUpdate old (mkPayload pdParse row actor now false)).defect_type =
      pyStrip row.defectType ∧
    (applyConflictUpdate old (mkPayload pdParse row actor now false)).priority =
      pyStrip row.priority ∧
    (applyConflictUpdate old (mkPayload pdParse row actor now false)).status =
      pyStrip row.status ∧
    (applyConflictUpdate old (mkPayload pdParse row actor now false)).resolved_date =
      parse_any_date pdParse row.resolvedDate ∧
    (applyConflictUpdate old (mkPayload pdParse row actor now false)).open_with =
      pyStrip row.openWith ∧
    (applyConflictUpdate old (mkPayload pdParse row actor now false)).reported_by =
      pyStrip row.reportedBy ∧
    (applyConflictUpdate old (mkPayload pdParse row actor now false)).responsible =
      pyStrip row.responsible ∧
    (applyConflictUpdate old (mkPayload pdParse row actor now false)).current_owner =
      pyStrip row.currentOwner ∧
    (applyConflictUpdate old (mkPayload pdParse row actor now false)).environment =
      pyStrip row.environment ∧
    (applyConflictUpdate old (mkPayload pdParse row actor now false)).linked_test_id =
      pyStrip row.linkedTestID ∧
    (applyConflictUpdate old (mkPayload pdParse row actor now false)).description =
      pyStrip row.description ∧
    (applyConflictUpdate old (mkPayload pdParse row actor now false)).steps =
      pyStrip row.steps := by
  have hT : table.any (fun r => r.defect_id == pyStrip row.defectID) = true := by
    have hm := List.mem_of_find?_eq_some hfind
    have hq := List.find?_some hfind
    exact List.any_eq_true.mpr ⟨old, hm, hq⟩
  refine ⟨?_, ?_, rfl, rfl, rfl, rfl, rfl, rfl, rfl, rfl, rfl, rfl, rfl, rfl, rfl,
    rfl, rfl, rfl, rfl, rfl, rfl, rfl⟩
  · simp only [upsert_defect, if_neg hid, sqliteUpsert]
    rw [mkPayload_defect_id]
    rw [if_pos hT]
  · exact find?_map_update table (mkPayload pdParse row actor now false) old hfind

/-- C6 witness: editing the stored defect `SD-1-001` keeps alice's
creation stamps while bob becomes the last updater and the edited fields
take the new values. -/
theorem C6_witness :
    upsert_defect pdNoParse [sampleStored] c6in "bob" "t1" false =
      .ok ([sampleStored].map (fun r =>
        if r.defect_id == pyStrip c6in.defectID
        then applyConflictUpdate r (mkPayload pdNoParse c6in "bob" "t1" false) else r)) ∧
    getDefect ([sampleStored].map (fun r =>
        if r.defect_id == pyStrip c6in.defectID
        then applyConflictUpdate r (mkPayload pdNoParse c6in "bob" "t1" false) else r))
        (pyStrip c6in.defectID) =
      some (applyConflictUpdate sampleStored (mkPayload pdNoParse c6in "bob" "t1" false)) ∧
    (applyConflictUpdate sampleStored (mkPayload pdNoParse c6in "bob" "t1" false)).created_by =
      sampleStored.created_by ∧
    (applyConflictUpdate sampleStored (mkPayload pdNoParse c6in "bob" "t1" false)).created_at =
      sampleStored.created_at ∧
    (applyConflictUpdate sampleStored (mkPayload pdNoParse c6in "bob" "t1" false)).last_updated_by =
      pyStrip "bob" ∧
    (applyConflictUpdate sampleStored (mkPayload pdNoParse c6in "bob" "t1" false)).last_updated_at =
      "t1" ∧
    (applyConflictUpdate sampleStored (mkPayload pdNoParse c6in "bob" "t1" false)).company_code =
      pyStrip c6in.companyCode ∧
    (applyConflictUpdate sampleStored (mkPayload pdNoParse c6in "bob" "t1" false)).open_date =
      parse_any_date pdNoParse c6in.openDate ∧
    (applyConflictUpdate sampleStored (mkPayload pdNoParse c6in "bob" "t1" false)).moduleName =
      pyStrip c6in.moduleName ∧
    (applyConflictUpdate sampleStored (mkPayload pdNoParse c6in "bob" "t1" false)).defect_title =
      pyStrip c6in.defectTitle ∧
    (applyConflictUpdate sampleStored (mkPayload pdNoParse c6in "bob" "t1" false)).defect_type =
      pyStrip c6in.defectType ∧
    (applyConflictUpdate sampleStored (mkPayload pdNoParse c6in "bob" "t1" false)).priority =
      pyStrip c6in.priority ∧
    (applyConflictUpdate sampleStored (mkPayload pdNoParse c6in "bob" "t1" false)).status =
      pyStrip c6in.status ∧
    (applyConflictUpdate sampleStored (mkPayload pdNoParse c6in "bob" "t1" false)).resolved_date =
      parse_any_date pdNoParse c6in.resolvedDate ∧
    (applyConflictUpdate sampleStored (mkPayload pdNoParse c6in "bob" "t1" false)).open_with =
      pyStrip c6in.openWith ∧
    (applyConflictUpdate sampleStored (mkPayload pdNoParse c6in "bob" "t1" false)).reported_by =
      pyStrip c6in.reportedBy ∧
    (applyConflictUpdate sampleStored (mkPayload pdNoParse c6in "bob" "t1" false)).responsible =
      pyStrip c6in.responsible ∧
    (applyConflictUpdate sampleStored (mkPayload pdNoParse c6in "bob" "t1" false)).current_owner =
      pyStrip c6in.currentOwner ∧
    (applyConflictUpdate sampleStored (mkPayload pdNoParse c6in "bob" "t1" false)).environment =
      pyStrip c6in.environment ∧
    (applyConflictUpdate sampleStored (mkPayload pdNoParse c6in "bob" "t1" false)).linked_test_id =
      pyStrip c6in.linkedTestID ∧
    (applyConflictUpdate sampleStored (mkPayload pdNoParse c6in "bob" "t1" false)).description =
      pyStrip c6in.description ∧
    (applyConflictUpdate sampleStored (mkPayload pdNoParse c6in "bob" "t1" false)).steps =
      pyStrip c6in.steps :=
  C6_update_preserves_created pdNoParse [sampleStored] c6in "bob" "t1" sampleStored
    (by decide) (by decide)
